import Mathlib

/-!
Verification of the transport-level interceptor mechanism of yarpc-go
(`transport/interceptor.go`) and the crossdock behavior recorder
(`crossdock/client/behavior.go`).

Shallow embedding conventions:
- A Go `error` value is `Option String`: `none` is the nil error, `some e`
  a non-nil error.
- `context.Context`, `*transport.Request` and `transport.ResponseWriter`
  are opaque to the interceptor core, so they are type parameters
  `C`, `R`, `W`.
- Side effects (logs, counters, writes to the response writer) are
  modelled by explicit state passing over a state type `σ`: a handler or
  interceptor takes the current state and returns the new state next to
  its error result.
-/

namespace Transport

/-- A Go `error` value: `none` is nil, `some e` carries a message. -/
abbrev Err := Option String

/-- `transport.Handler`: `Handle(ctx, req, resw) error`, with effects as
state passing over `σ`. -/
def Handler (C R W σ : Type) : Type :=
  C → R → W → σ → Err × σ

/-- `transport.Interceptor`: `Handle(ctx, req, resw, h Handler) error`,
with effects as state passing over `σ`. -/
def Interceptor (C R W σ : Type) : Type :=
  C → R → W → Handler C R W σ → σ → Err × σ

/-- The struct `interceptedHandler{h, i}` together with its `Handle`
method: `Handle(ctx, req, resw)` returns `i.Handle(ctx, req, resw, h)`. -/
def interceptedHandler {C R W σ : Type}
    (h : Handler C R W σ) (i : Interceptor C R W σ) : Handler C R W σ :=
  fun ctx req resw s => i ctx req resw h s

/-- `ApplyInterceptor(h, i)`: if `i == nil` return `h`, otherwise return
`interceptedHandler{h: h, i: i}`.  A possibly-nil Go interface value of
type `Interceptor` is an `Option (Interceptor C R W σ)`. -/
def ApplyInterceptor {C R W σ : Type}
    (h : Handler C R W σ) (i : Option (Interceptor C R W σ)) : Handler C R W σ :=
  match i with
  | none => h
  | some i => interceptedHandler h i

/-- The method `nopInterceptor.Handle`: simply calls the underlying
handler with unmodified arguments. -/
def nopInterceptor {C R W σ : Type} : Interceptor C R W σ :=
  fun ctx req resw handler s => handler ctx req resw s

/-- `NopInterceptor`, the exported singleton `nopInterceptor{}` value. -/
def NopInterceptor {C R W σ : Type} : Interceptor C R W σ :=
  nopInterceptor

/-- `InterceptorFunc`: a function with the shape of `Interceptor.Handle`. -/
def InterceptorFunc (C R W σ : Type) : Type :=
  C → R → W → Handler C R W σ → σ → Err × σ

/-- `Handle` for `InterceptorFunc`: `f.Handle(ctx, req, resw, h)` returns
`f(ctx, req, resw, h)`. -/
def InterceptorFunc.Handle {C R W σ : Type} (f : InterceptorFunc C R W σ)
    (ctx : C) (req : R) (resw : W) (h : Handler C R W σ) (s : σ) : Err × σ :=
  f ctx req resw h s

/-! Instrumentation used by the observational claims.  These are the
probes the spec's testable properties describe (entry/exit logs, a call
counter private to the handler), not part of the source. -/

/-- A handler that appends the event `ev` to an event log and returns the
error given by `res` at its arguments: the terminal probe `H` of the
ordering property. -/
def logHandler {C R W E : Type} (ev : E) (res : C → R → W → Err) :
    Handler C R W (List E) :=
  fun ctx req resw s => (res ctx req resw, s ++ [ev])

/-- A pass-through probe interceptor: logs `enter`, calls the next handler
once with unmodified arguments, logs `exit`, and returns the handler's
result verbatim. -/
def probe {C R W E : Type} (enter exit : E) : Interceptor C R W (List E) :=
  fun ctx req resw h s =>
    let r := h ctx req resw (s ++ [enter])
    (r.1, r.2 ++ [exit])

/-- Instruments a handler with a call counter that only the handler
itself touches: each invocation increments the `Nat` component. -/
def countedHandler {C R W σ : Type} (h : Handler C R W σ) :
    Handler C R W (σ × Nat) :=
  fun ctx req resw p =>
    let r := h ctx req resw p.1
    (r.1, (r.2, p.2 + 1))

/-- A handler with no effects and a nil result, used to name the
synthesized result of an interceptor that ignores its next handler. -/
def inertHandler {C R W σ : Type} : Handler C R W σ :=
  fun _ _ _ s => (none, s)

/-- The canonical retrying interceptor of the multi-invocation property:
calls the next handler twice with the same arguments and propagates the
second call's result. -/
def callTwice {C R W σ : Type} : Interceptor C R W σ :=
  fun ctx req resw h s =>
    h ctx req resw (h ctx req resw s).2

/-! Nil-aware embedding.  A Go interface value of type `Handler` may be
nil; calling `Handle` on a nil interface panics.  An invocation outcome
is therefore an `Option (Err × σ)`: `none` is a panic.  `ApplyInterceptor`
stores the handler interface value unchecked in `interceptedHandler` and
hands it to the interceptor as `next`, so the nil check happens — as a
panic — only if and when `next.Handle` is actually called. -/

/-- An invocation that may panic: `none` is a Go runtime panic. -/
def HandlerP (C R W σ : Type) : Type :=
  C → R → W → σ → Option (Err × σ)

/-- Invoking a possibly-nil `Handler` interface value: a method call on
the nil interface panics. -/
def invokeHandler {C R W σ : Type} (h : Option (Handler C R W σ)) :
    HandlerP C R W σ :=
  fun ctx req resw s =>
    match h with
    | none => none
    | some f => some (f ctx req resw s)

/-- An interceptor in the nil-aware world: its `next` argument may be the
nil handler interface, and calling it may panic. -/
def InterceptorP (C R W σ : Type) : Type :=
  C → R → W → HandlerP C R W σ → σ → Option (Err × σ)

/-- `ApplyInterceptor` with a possibly-nil handler argument, returning the
composed handler's invocation behavior: `i == nil` returns `h` itself
(whose invocation panics when `h` is nil), otherwise
`interceptedHandler{h, i}` passes the unchecked `h` to `i` as `next`. -/
def ApplyInterceptorP {C R W σ : Type}
    (h : Option (Handler C R W σ)) (i : Option (InterceptorP C R W σ)) :
    HandlerP C R W σ :=
  match i with
  | none => invokeHandler h
  | some i => fun ctx req resw s => i ctx req resw (invokeHandler h) s

/-- `nopInterceptor.Handle` in the nil-aware world: calls the given
handler interface value directly. -/
def nopInterceptorP {C R W σ : Type} : InterceptorP C R W σ :=
  fun ctx req resw handler s => handler ctx req resw s

/-- A short-circuiting interceptor that never calls `next` and returns a
nil error. -/
def shortCircuitP {C R W σ : Type} : InterceptorP C R W σ :=
  fun _ _ _ _ s => some (none, s)

/-- A concrete short-circuiting interceptor (an auth-style rejection):
ignores its next handler and synthesizes an error. -/
def authReject : Interceptor Unit Unit Unit (Unit × Nat) :=
  fun _ _ _ _ s => (some "unauthorized", s)

end Transport

namespace Crossdock

/-- `client.Status`: a string-valued status. -/
abbrev Status := String

/-- The constant `Passed`. -/
def Passed : Status := "passed"

/-- The constant `Skipped`. -/
def Skipped : Status := "skipped"

/-- The constant `Failed`. -/
def Failed : Status := "failed"

/-- `client.Params`: access to the behavior parameters by name. -/
def Params : Type := String → String

/-- `client.EntryBuilder`: builds entries (of entry type `α`, the
embedding of Go's `interface{}` payload) for a behavior's results. -/
structure EntryBuilder (α : Type) where
  Skip : String → α
  Fail : String → α
  Pass : String → α

/-- `client.BasicEntry`: the most basic form of an entry. -/
structure BasicEntry where
  status : Status
  output : String
deriving DecidableEq

/-- The method set of `basicEntryBuilder`, i.e. the exported
`BasicEntryBuilder` value. -/
def BasicEntryBuilder : EntryBuilder BasicEntry where
  Skip := fun reason => { status := Skipped, output := reason }
  Fail := fun message => { status := Failed, output := message }
  Pass := fun output => { status := Passed, output := output }

/-- `client.BehaviorTester`: the root behavior state.  The Go struct is
mutated through a pointer; here its state is passed explicitly. -/
structure BehaviorTester (α : Type) where
  Params : Params
  Failed : Bool
  Skipped : Bool
  Entries : List α

/-- `BehaviorTester.putEntry(entry, status)`: switch on the status to
latch the corresponding flag, then append the entry. -/
def BehaviorTester.putEntry {α : Type} (bt : BehaviorTester α)
    (entry : α) (status : Status) : BehaviorTester α :=
  let bt :=
    if status = Crossdock.Failed then { bt with Failed := true }
    else if status = Crossdock.Skipped then { bt with Skipped := true }
    else bt
  { bt with Entries := bt.Entries ++ [entry] }

/-- The `behavior` struct: holds the parameters and the entry builder;
its tester pointer is the explicitly passed `BehaviorTester` state. -/
structure behavior (α : Type) where
  Params : Params
  Builder : EntryBuilder α

/-- `BehaviorTester.NewBehavior(builder)`: a behavior recording into this
tester. -/
def BehaviorTester.NewBehavior {α : Type} (bt : BehaviorTester α)
    (builder : EntryBuilder α) : behavior α :=
  { Params := bt.Params, Builder := builder }

/-- `behavior.Skip(reason)`: `Tester.putEntry(Builder.Skip(reason), Skipped)`. -/
def behavior.Skip {α : Type} (b : behavior α) (bt : BehaviorTester α)
    (reason : String) : BehaviorTester α :=
  bt.putEntry (b.Builder.Skip reason) Skipped

/-- `behavior.Fail(message)`: `Tester.putEntry(Builder.Fail(message), Failed)`. -/
def behavior.Fail {α : Type} (b : behavior α) (bt : BehaviorTester α)
    (message : String) : BehaviorTester α :=
  bt.putEntry (b.Builder.Fail message) Failed

/-- `behavior.Pass(output)`: `Tester.putEntry(Builder.Pass(output), Passed)`. -/
def behavior.Pass {α : Type} (b : behavior α) (bt : BehaviorTester α)
    (output : String) : BehaviorTester α :=
  bt.putEntry (b.Builder.Pass output) Passed

/-- `behavior.Skipf(format, args...)`: `Skip(fmt.Sprintf(format, args...))`.
`fmt.Sprintf` is external to the repository, so it is a parameter. -/
def behavior.Skipf {α : Type} (b : behavior α) (bt : BehaviorTester α)
    (sprintf : String → List String → String)
    (format : String) (args : List String) : BehaviorTester α :=
  b.Skip bt (sprintf format args)

/-- `behavior.Failf(format, args...)`: `Fail(fmt.Sprintf(format, args...))`. -/
def behavior.Failf {α : Type} (b : behavior α) (bt : BehaviorTester α)
    (sprintf : String → List String → String)
    (format : String) (args : List String) : BehaviorTester α :=
  b.Fail bt (sprintf format args)

/-- `behavior.Passf(format, args...)`: `Pass(fmt.Sprintf(format, args...))`. -/
def behavior.Passf {α : Type} (b : behavior α) (bt : BehaviorTester α)
    (sprintf : String → List String → String)
    (format : String) (args : List String) : BehaviorTester α :=
  b.Pass bt (sprintf format args)

end Crossdock

namespace Transport

/-- C1: applying a non-absent interceptor `i` to a handler `h` yields a
handler whose `Handle`, at every `ctx`, `req`, `resw` (and state), returns
exactly `i.Handle(ctx, req, resw, h)`. -/
theorem applyInterceptor_some_handle {C R W σ : Type}
    (h : Handler C R W σ) (i : Interceptor C R W σ)
    (ctx : C) (req : R) (resw : W) (s : σ) :
    ApplyInterceptor h (some i) ctx req resw s = i ctx req resw h s := rfl

/-- C2: applying a nil interceptor returns the handler itself unchanged —
the identical value, not a wrapper. -/
theorem applyInterceptor_none_eq {C R W σ : Type} (h : Handler C R W σ) :
    ApplyInterceptor h none = h := rfl

/-- C3: composing the no-op interceptor around a handler is
observationally the handler itself — same result and same effects at
every input — and, on a call-counted handler, it calls through exactly
once (the counter advances by exactly one). -/
theorem applyInterceptor_nop_transparent {C R W σ : Type}
    (h : Handler C R W σ) (ctx : C) (req : R) (resw : W) (s : σ) :
    ApplyInterceptor h (some NopInterceptor) ctx req resw s = h ctx req resw s
      ∧ ∀ (h0 : Handler C R W σ) (n : Nat),
          (ApplyInterceptor (countedHandler h0) (some NopInterceptor)
            ctx req resw (s, n)).2.2 = n + 1 :=
  ⟨rfl, fun _ _ => rfl⟩

/-- C5: the composition layer returns the error value of `i.Handle`
verbatim: it never discards, replaces or transforms it (the whole result,
error component and effects alike, is exactly `i.Handle`'s). -/
theorem applyInterceptor_propagates_error {C R W σ : Type}
    (h : Handler C R W σ) (i : Interceptor C R W σ)
    (ctx : C) (req : R) (resw : W) (s : σ) :
    (ApplyInterceptor h (some i) ctx req resw s).1
      = (i ctx req resw h s).1 := rfl

/-- C9: the `InterceptorFunc` adapter is behavior-preserving:
`InterceptorFunc(f).Handle(ctx, req, resw, h)` returns exactly
`f(ctx, req, resw, h)`. -/
theorem interceptorFunc_handle_eq {C R W σ : Type}
    (f : InterceptorFunc C R W σ) (ctx : C) (req : R) (resw : W)
    (h : Handler C R W σ) (s : σ) :
    InterceptorFunc.Handle f ctx req resw h s = f ctx req resw h s := rfl

/-- C4: composing probe `I2` around the logging handler `H` and probe
`I1` around that (`I1` outermost), a pass-through invocation appends the
event sequence I1-enter, I2-enter, H, I2-exit, I1-exit to the log, and
the handler's result comes back unchanged through both layers. -/
theorem interceptor_ordering {C R W E : Type} (i1e i2e he i2x i1x : E)
    (res : C → R → W → Err) (ctx : C) (req : R) (resw : W) (s : List E) :
    ApplyInterceptor
        (ApplyInterceptor (logHandler he res) (some (probe i2e i2x)))
        (some (probe i1e i1x)) ctx req resw s
      = (res ctx req resw, s ++ [i1e, i2e, he, i2x, i1x]) := by
  simp [ApplyInterceptor, interceptedHandler, probe, logHandler]

/-- C6: an interceptor that never invokes its next handler (its result
does not depend on it, and on its own — given an inert next — it never
touches the handler's private call counter) composes with a call-counted
handler into a handler that leaves the count unchanged (so from count 0
it stays 0) and returns the interceptor's own synthesized result. -/
theorem shortcircuit_never_calls_handler {C R W σ : Type}
    (i : Interceptor C R W (σ × Nat))
    (hIndep : ∀ (ctx : C) (req : R) (resw : W)
        (h h2 : Handler C R W (σ × Nat)) (s : σ × Nat),
        i ctx req resw h s = i ctx req resw h2 s)
    (hOwn : ∀ (ctx : C) (req : R) (resw : W) (s : σ) (n : Nat),
        ((i ctx req resw inertHandler (s, n)).2).2 = n)
    (h0 : Handler C R W σ) (ctx : C) (req : R) (resw : W) (s : σ) (n : Nat) :
    ApplyInterceptor (countedHandler h0) (some i) ctx req resw (s, n)
        = i ctx req resw inertHandler (s, n)
      ∧ (ApplyInterceptor (countedHandler h0) (some i)
          ctx req resw (s, n)).2.2 = n := by
  have h1 : ApplyInterceptor (countedHandler h0) (some i) ctx req resw (s, n)
      = i ctx req resw inertHandler (s, n) :=
    hIndep ctx req resw (countedHandler h0) inertHandler (s, n)
  exact ⟨h1, by rw [h1]; exact hOwn ctx req resw s n⟩

/-- Witness for C6 at the concrete short-circuiting interceptor
`authReject` and a counted inert handler, starting from count 0. -/
theorem shortcircuit_never_calls_handler_witness :
    ApplyInterceptor (countedHandler inertHandler) (some authReject)
        () () () ((), 0)
        = authReject () () () inertHandler ((), 0)
      ∧ (ApplyInterceptor (countedHandler inertHandler) (some authReject)
          () () () ((), 0)).2.2 = 0 :=
  shortcircuit_never_calls_handler authReject
    (fun _ _ _ _ _ _ => rfl) (fun _ _ _ _ _ => rfl)
    inertHandler () () () () 0

/-- C7: an interceptor that behaves as `callTwice` — calls its next
handler twice with the same request and propagates the last result —
composes with a call-counted handler into a handler that advances the
count by exactly two and returns the second call's result. -/
theorem multi_invocation_twice {C R W σ : Type}
    (i : Interceptor C R W (σ × Nat))
    (hTwice : ∀ (ctx : C) (req : R) (resw : W)
        (h : Handler C R W (σ × Nat)) (s : σ × Nat),
        i ctx req resw h s = callTwice ctx req resw h s)
    (h0 : Handler C R W σ) (ctx : C) (req : R) (resw : W) (s : σ) (n : Nat) :
    ApplyInterceptor (countedHandler h0) (some i) ctx req resw (s, n)
      = ((h0 ctx req resw (h0 ctx req resw s).2).1,
         ((h0 ctx req resw (h0 ctx req resw s).2).2, n + 2)) := by
  have h1 := hTwice ctx req resw (countedHandler h0) (s, n)
  simpa [ApplyInterceptor, interceptedHandler, callTwice, countedHandler,
    Nat.add_assoc] using h1

/-- Witness for C7 at `i := callTwice` itself over a counted inert
handler starting from count 0: the count ends at 2 and the second call's
(nil) result is returned. -/
theorem multi_invocation_twice_witness :
    ApplyInterceptor (countedHandler (inertHandler (C := Unit) (R := Unit)
        (W := Unit) (σ := Unit))) (some callTwice) () () () ((), 0)
      = (none, ((), 2)) := by
  simpa using multi_invocation_twice callTwice
    (fun _ _ _ _ _ => rfl) inertHandler () () () () 0

/-- C8 counterexample: with a nil handler and an interceptor that never
calls `next` and does nothing else, composition does not reject, and the
first invocation of the composed handler completes as a successful no-op
(no panic, nil error, state untouched) — it does not fail fast. -/
theorem nil_handler_silent_noop :
    ApplyInterceptorP (C := Unit) (R := Unit) (W := Unit) (σ := Unit)
        none (some shortCircuitP) () () () () = some (none, ()) := rfl

/-- C8 amended: `ApplyInterceptor` performs no nil check on the handler;
the failure surfaces as a panic exactly when an invocation actually calls
the nil handler: with a nil interceptor, or with the no-op (pass-through)
interceptor, the first invocation panics. -/
theorem nil_handler_panics_when_called {C R W σ : Type}
    (ctx : C) (req : R) (resw : W) (s : σ) :
    ApplyInterceptorP (none : Option (Handler C R W σ)) none ctx req resw s
        = none
      ∧ ApplyInterceptorP (none : Option (Handler C R W σ))
          (some nopInterceptorP) ctx req resw s = none :=
  ⟨rfl, rfl⟩

end Transport

namespace Crossdock

/-- C10: on a behavior from `NewBehavior`, `Skip`, `Fail` and `Pass`
each append exactly the one entry built by the behavior's builder from
the given string; `Fail` sets `Failed`, `Skip` sets `Skipped`, and each
operation leaves the other flag exactly as it was (`Pass` leaves both),
so neither flag is ever reset; the formatted variants are exactly the
plain operations on the formatted string. -/
theorem behavior_entry_flag_invariants {α : Type}
    (bt : BehaviorTester α) (builder : EntryBuilder α)
    (reason message output : String)
    (sprintf : String → List String → String)
    (format : String) (args : List String) :
    (((bt.NewBehavior builder).Skip bt reason).Entries
          = bt.Entries ++ [builder.Skip reason]
        ∧ ((bt.NewBehavior builder).Skip bt reason).Skipped = true
        ∧ ((bt.NewBehavior builder).Skip bt reason).Failed = bt.Failed)
      ∧ (((bt.NewBehavior builder).Fail bt message).Entries
          = bt.Entries ++ [builder.Fail message]
        ∧ ((bt.NewBehavior builder).Fail bt message).Failed = true
        ∧ ((bt.NewBehavior builder).Fail bt message).Skipped = bt.Skipped)
      ∧ (((bt.NewBehavior builder).Pass bt output).Entries
          = bt.Entries ++ [builder.Pass output]
        ∧ ((bt.NewBehavior builder).Pass bt output).Failed = bt.Failed
        ∧ ((bt.NewBehavior builder).Pass bt output).Skipped = bt.Skipped)
      ∧ ((bt.NewBehavior builder).Skipf bt sprintf format args
          = (bt.NewBehavior builder).Skip bt (sprintf format args)
        ∧ (bt.NewBehavior builder).Failf bt sprintf format args
          = (bt.NewBehavior builder).Fail bt (sprintf format args)
        ∧ (bt.NewBehavior builder).Passf bt sprintf format args
          = (bt.NewBehavior builder).Pass bt (sprintf format args)) := by
  refine ⟨⟨?_, ?_, ?_⟩, ⟨?_, ?_, ?_⟩, ⟨?_, ?_, ?_⟩, rfl, rfl, rfl⟩ <;>
    simp [BehaviorTester.NewBehavior, behavior.Skip, behavior.Fail,
      behavior.Pass, BehaviorTester.putEntry, Passed, Skipped, Failed]

end Crossdock
